import Mathlib

/-!
Verification development for the bullz-vector-proxy repository
(src/app.py and src/routes_search_fix.py): a shallow embedding of the
HTTP handlers, the vector-store resolvers and the response-text
normalization, together with theorems settling the specification claims.

Upstream HTTP traffic is modelled by oracle functions supplied in an
environment record; every handler returns, besides its HTTP outcome, the
ordered trace of upstream operations it performed, so that statements
about "no upstream call" and about which store id a call used are
expressible.
-/

namespace BullzProxy

/-- JSON-like values, the data interchanged with the upstream provider.
Object fields keep insertion order, as Python dicts do. -/
inductive JVal where
  | null : JVal
  | bool : Bool → JVal
  | str : String → JVal
  | num : Int → JVal
  | arr : List JVal → JVal
  | obj : List (String × JVal) → JVal

/-- Python truthiness of a JSON value: None, False, empty string, zero,
empty list and empty dict are falsy. -/
def jtruthy : JVal → Bool
  | .null => false
  | .bool b => b
  | .str s => s ≠ ""
  | .num n => n ≠ 0
  | .arr l => ¬ l.isEmpty
  | .obj l => ¬ l.isEmpty

/-- Whether the value is a (JSON) string, mirroring isinstance(x, str). -/
def jIsStr : JVal → Bool
  | .str _ => true
  | _ => false

/-- Dictionary lookup mirroring dict.get(k): the first binding of the key,
or null when the key is absent or the value is not a dict. -/
def jget : JVal → String → JVal
  | .obj kvs, k => ((kvs.lookup k).getD .null)
  | _, _ => .null

/-- Text contribution of one content entry, mirroring the inner loop of
routes_search_fix.py lines 115-117. As in Python, the entry must be a
dict — ct.get on anything else raises AttributeError, modelled as an
error value carrying a representative message (no claim inspects
exception texts). A dict entry typed output_text or text whose text
field is truthy contributes that raw value, of whatever JSON type it
is; the join step later fails on non-strings exactly as Python does. -/
def ctText (ct : JVal) : Except String (Option JVal) :=
  match ct with
  | .obj kvs =>
    .ok (match jget (.obj kvs) "type" with
      | .str ty =>
        if ty = "output_text" ∨ ty = "text" then
          if jtruthy (jget (.obj kvs) "text") then some (jget (.obj kvs) "text") else none
        else none
      | _ => none)
  | _ => .error "AttributeError: get"

/-- Left-to-right walk over a content list, stopping at the first entry
whose processing raises. -/
def contentParts : List JVal → Except String (List JVal)
  | [] => .ok []
  | ct :: rest =>
    match ctText ct with
    | .error e => .error e
    | .ok none => contentParts rest
    | .ok (some v) =>
      match contentParts rest with
      | .error e => .error e
      | .ok vs => .ok (v :: vs)

/-- Texts found in one output item, mirroring the walk over
item.get("content") in routes_search_fix.py lines 114-117: the item
must be a dict (item.get on anything else raises AttributeError); a
falsy content value is replaced by the empty list; a truthy non-list
content makes the Python loop raise (TypeError when not iterable, or
AttributeError from ct.get on its elements), modelled as an error
value. -/
def itemTexts (item : JVal) : Except String (List JVal) :=
  match item with
  | .obj kvs =>
    match jget (.obj kvs) "content" with
    | .arr cts => contentParts cts
    | c => if jtruthy c then .error "TypeError: content is not a list of dicts" else .ok []
  | _ => .error "AttributeError: get"

/-- Left-to-right walk over the output items, stopping at the first
item whose processing raises. -/
def outputParts : List JVal → Except String (List JVal)
  | [] => .ok []
  | it :: rest =>
    match itemTexts it with
    | .error e => .error e
    | .ok ps =>
      match outputParts rest with
      | .error e => .error e
      | .ok qs => .ok (ps ++ qs)

/-- Parts collected at the fixed depth output, content of a reply,
mirroring the fallback walk of routes_search_fix.py lines 112-117: a
falsy output value is replaced by the empty list, and a truthy non-list
output raises. -/
def shallowTexts (data : JVal) : Except String (List JVal) :=
  match jget data "output" with
  | .arr items => outputParts items
  | c => if jtruthy c then .error "TypeError: output is not a list of dicts" else .ok []

/-- All parts as plain strings, or none when some part is not a string,
the case where the newline join in Python raises TypeError. -/
def asStrings : List JVal → Option (List String)
  | [] => some []
  | .str s :: rest => (asStrings rest).map (fun ss => s :: ss)
  | _ :: _ => none

/-- Python str.strip on the character list: drop whitespace from both
ends. -/
def pyStripList (l : List Char) : List Char :=
  ((l.dropWhile Char.isWhitespace).reverse.dropWhile Char.isWhitespace).reverse

/-- Python str.strip: the string with leading and trailing whitespace
removed. -/
def pyStrip (s : String) : String :=
  String.mk (pyStripList s.data)

/-- Normalized text of a REST /v1/responses reply, mirroring
routes_search_fix.py lines 106-118 inclusive of its failure modes: a
truthy top-level output_text is returned as is; otherwise the depth-two
parts are collected, joined with newlines and stripped, the sentinel
replacing an empty result; a non-string part makes the join raise
TypeError. A raised exception is modelled as an error value, which the
broad except of the handler (lines 150-154) turns into HTTP 500. A
non-dict reply yields the empty string. -/
def restExtractText (data : JVal) : Except String JVal :=
  match data with
  | .obj kvs =>
    if jtruthy (jget (.obj kvs) "output_text") then .ok (jget (.obj kvs) "output_text")
    else
      match shallowTexts (.obj kvs) with
      | .error e => .error e
      | .ok parts =>
        match asStrings parts with
        | none => .error "TypeError: sequence item is not a str"
        | some ss =>
          .ok (.str (if pyStrip (String.intercalate "\n" ss) = "" then "(no text output)"
                     else pyStrip (String.intercalate "\n" ss)))
  | _ => .ok (.str "")

mutual

/-- Deep text collection, mirroring app.py _collect_text_deep
(lines 291-302): a depth-first walk appending the raw text field of
every dict node typed output_text or text, then recursing into the
values of dicts and the elements of lists, in document order. This
function is defined in app.py but no code calls it. -/
def collectTextDeep : JVal → List JVal
  | .obj kvs =>
    (match kvs.lookup "type" with
     | some (.str t) =>
       if t = "output_text" ∨ t = "text" then
         match kvs.lookup "text" with
         | some v => [v]
         | none => []
       else []
     | _ => []) ++ collectTextDeepFields kvs
  | .arr vs => collectTextDeepItems vs
  | _ => []

/-- Deep text collection over the values of a dict, in field order. -/
def collectTextDeepFields : List (String × JVal) → List JVal
  | [] => []
  | (_, v) :: rest => collectTextDeep v ++ collectTextDeepFields rest

/-- Deep text collection over the elements of a list, in order. -/
def collectTextDeepItems : List JVal → List JVal
  | [] => []
  | v :: rest => collectTextDeep v ++ collectTextDeepItems rest

end

/-- Outcome of serving one HTTP request: a 200 JSON body, a raised
HTTPException with status and detail, or an uncaught exception (which
the framework turns into a bare 500 with no structured detail). -/
inductive Resp where
  | ok : JVal → Resp
  | httpExc : Nat → JVal → Resp
  | unhandled : String → Resp

/-- HTTP status the caller observes for an outcome: 200 for a JSON body,
the raised status for an HTTPException, 500 for an uncaught exception. -/
def Resp.status : Resp → Nat
  | .ok _ => 200
  | .httpExc s _ => s
  | .unhandled _ => 500

/-- Secret Gate of app.py check_secret (lines 130-132): rejects when the
header is absent, empty, or different from the expected secret. The
header value is given as an Option, none meaning the header was not
sent (the app.py handlers declare it with a None default). -/
def checkSecretRejects (hdr : Option String) (expected : String) : Bool :=
  match hdr with
  | none => true
  | some s => s = "" ∨ s ≠ expected

/-- Modelled from the spec: the POST /authcheck endpoint listed in the
interface table is absent from src/; per the spec it passes the Secret
Gate and returns ok true with no upstream call, else 401. The trace of
upstream calls it performs is returned alongside (always empty). -/
def authcheck (expected : String) (hdr : Option String) : Resp × List String :=
  if checkSecretRejects hdr expected then (.httpExc 401 (.str "bad secret"), [])
  else (.ok (.obj [("ok", .bool true)]), [])

/-- Result and upstream-call trace of the /search handler defined in
app.py (lines 175-177): its body is only the secret check, because the
payload construction and the upstream POST that follow it in the file
are dedented to module scope; the handler falls off the end and returns
None (serialized as JSON null). The second component lists the
upstream query calls performed by the handler (none). -/
def appSearch (expected : String) (hdr : Option String) : Resp × List String :=
  if checkSecretRejects hdr expected then (.httpExc 401 (.str "bad secret"), [])
  else (.ok .null, [])

/-- Upstream operations performed while serving /upload. -/
inductive UpOp where
  | createFile
  | attach (storeId fileId : String)
  | updateMeta (fileId ns : String)
deriving DecidableEq

/-- Upstream oracle for /upload: outcome of the file-create call, the
vector-store attach call, and the metadata-update call, each either a
value or the message of the exception it raises. -/
structure UploadEnv where
  createFile : Except String String
  attach : Except String Unit
  updateMeta : Except String Unit

/-- The /upload handler of app.py (lines 142-168): secret gate, then
file create, then attach to the process-wide store id, then best-effort
namespace tagging whose failure is swallowed. Upstream exceptions from
create and attach are not caught by the handler. -/
def upload (expected storeId : String) (env : UploadEnv)
    (hdr : Option String) (ns : Option String) : Resp × List UpOp :=
  if checkSecretRejects hdr expected then (.httpExc 401 (.str "bad secret"), [])
  else
    match env.createFile with
    | .error e => (.unhandled e, [.createFile])
    | .ok fid =>
      match env.attach with
      | .error e => (.unhandled e, [.createFile, .attach storeId fid])
      | .ok _ =>
        match ns with
        | none =>
          (.ok (.obj [("ok", .bool true), ("file_id", .str fid), ("namespace", .null)]),
           [.createFile, .attach storeId fid])
        | some n =>
          if n = "" then
            (.ok (.obj [("ok", .bool true), ("file_id", .str fid), ("namespace", .str n)]),
             [.createFile, .attach storeId fid])
          else
            (.ok (.obj [("ok", .bool true), ("file_id", .str fid), ("namespace", .str n)]),
             [.createFile, .attach storeId fid, .updateMeta fid n])

/-- One upstream vector store as seen when listing: its name attribute
(None when absent) and its id. -/
structure Store where
  name : Option String
  id : String

/-- Vector-store operations issued to the upstream provider. -/
inductive StoreOp where
  | create (name : String)
  | list
deriving DecidableEq

/-- Upstream oracle for vector-store management: outcomes of the first
create call, of the list call, and of a second create call, each either
a value or the message of the exception it raises. -/
structure StoreEnv where
  create1 : Except String String
  list : Except String (List Store)
  create2 : Except String String

/-- The per-request resolver of routes_search_fix.py,
_get_or_create_vector_store_id (lines 30-49): it first attempts to
create a store with the configured name; only if that call raises does
it list the stores and return the first whose name equals the
configured name, creating once more when none matches. The trace of
store operations is returned alongside. -/
def getOrCreateVectorStoreId (env : StoreEnv) (vsName : String) :
    Except String String × List StoreOp :=
  match env.create1 with
  | .ok vid => (.ok vid, [.create vsName])
  | .error _ =>
    match env.list with
    | .error e => (.error e, [.create vsName, .list])
    | .ok stores =>
      match stores.find? (fun s => s.name == some vsName) with
      | some s => (.ok s.id, [.create vsName, .list])
      | none =>
        match env.create2 with
        | .ok vid => (.ok vid, [.create vsName, .list, .create vsName])
        | .error e => (.error e, [.create vsName, .list, .create vsName])

/-- Upstream oracle for the startup resolver: the list call and the
create call. -/
structure ResolveEnv where
  list : Except String (List Store)
  create : Except String String

/-- The startup resolver of app.py, ensure_vector_store_safe
(lines 71-117), in the branch where the SDK exposes vector stores: a
configured non-empty id is returned unchanged with no upstream call;
otherwise the stores are listed and the first whose name equals the
configured name wins (a failed list is swallowed and treated as no
match); otherwise a store is created. The REST fallback (lines 99-117)
repeats the same list, find-by-name, create order. -/
def ensureVectorStoreSafe (env : ResolveEnv) (vsId vsName : String) :
    Except String String × List StoreOp :=
  if vsId ≠ "" then (.ok vsId, [])
  else
    match env.list with
    | .ok stores =>
      match stores.find? (fun s => s.name == some vsName) with
      | some s => (.ok s.id, [.list])
      | none =>
        match env.create with
        | .ok vid => (.ok vid, [.list, .create vsName])
        | .error e => (.error e, [.list, .create vsName])
    | .error _ =>
      match env.create with
      | .ok vid => (.ok vid, [.list, .create vsName])
      | .error e => (.error e, [.list, .create vsName])

/-- Body of a POST /search request. The query is kept as a JSON value so
that non-string payloads are expressible; top_k mirrors the Optional
int field. -/
structure SearchBody where
  query : JVal
  topK : Option Int
  namespc : Option String

/-- The expression int(body.top_k or 6) of routes_search_fix.py line 140
and app.py line 195: a falsy top_k (absent, null or zero) is replaced
by the default 6; any other integer passes through. -/
def forwardTopK : Option Int → Int
  | none => 6
  | some k => if k = 0 then 6 else k

/-- The JSON payload posted to /v1/responses, as built in
routes_search_fix.py lines 89-100: model, the user query text, the
vector-store ids under tool_resources.file_search, and the metadata
origin and top_k. -/
structure Payload where
  model : String
  queryText : JVal
  vectorStoreIds : List String
  origin : String
  topK : Int

/-- Payload construction for the REST call (lines 89-100). -/
def buildPayload (model : String) (q : JVal) (vsId : String) (topK : Int) : Payload :=
  ⟨model, q, [vsId], "bullz-vector-proxy", topK⟩

/-- An HTTP reply from the upstream provider: status code, raw body
text, and the body parsed as JSON. -/
structure UpstreamResp where
  status : Nat
  text : String
  json : JVal

/-- Environment of the /search handler of routes_search_fix.py: the
configured expected secret (empty when the variable is unset), the API
key (empty when unset), the store name, the model, the vector-store
oracle, and the oracle answering POST /v1/responses. The model fixes
the environment in which the claims cited lines run: the SDK is
importable but lacks the responses API, so store resolution goes
through the SDK and the query goes through the REST fallback
_responses_via_rest. -/
structure SearchEnv where
  secretExpected : String
  apiKey : String
  vectorStoreName : String
  searchModel : String
  store : StoreEnv
  respond : Payload → UpstreamResp

/-- Full trace of serving one POST /search request on the
routes_search_fix.py router: the HTTP outcome, the vector-store
operations performed, and the payloads posted to /v1/responses, in
order. -/
structure SearchRun where
  result : Resp
  storeOps : List StoreOp
  responsesCalls : List Payload

/-- The /search handler of routes_search_fix.py (lines 121-154): secret
gate (401), query validation (400), API-key presence (500), per-request
vector-store resolution (failure becomes a 500 with an explanatory
detail), then a single POST to /v1/responses; a non-2xx reply raises an
HTTPException 500 whose detail carries the upstream status and body,
and a 2xx reply is normalized into ok, text and empty citations — an
exception raised during normalization is caught by the broad except of
lines 150-154 and surfaces as HTTP 500 with the exception text. -/
def searchFix (env : SearchEnv) (body : SearchBody) (hdr : String) : SearchRun :=
  if env.secretExpected = "" ∨ hdr ≠ env.secretExpected then
    ⟨.httpExc 401 (.str "bad secret"), [], []⟩
  else if jtruthy body.query = false ∨ jIsStr body.query = false then
    ⟨.httpExc 400 (.str "query required"), [], []⟩
  else if env.apiKey = "" then
    ⟨.httpExc 500 (.str "OPENAI_API_KEY missing"), [], []⟩
  else
    match getOrCreateVectorStoreId env.store env.vectorStoreName with
    | (.error e, ops) =>
      ⟨.httpExc 500 (.obj [("error",
          .str "SDK too old to manage vector stores; upgrade openai to >=1.52.0"),
        ("detail", .str e)]), ops, []⟩
    | (.ok vsId, ops) =>
      if 400 ≤ (env.respond (buildPayload env.searchModel body.query vsId (forwardTopK body.topK))).status then
        ⟨.httpExc 500 (.obj [("error",
            .str ("REST responses failed: " ++ toString
              (env.respond (buildPayload env.searchModel body.query vsId (forwardTopK body.topK))).status)),
          ("body", .str (env.respond (buildPayload env.searchModel body.query vsId (forwardTopK body.topK))).text)]),
          ops, [buildPayload env.searchModel body.query vsId (forwardTopK body.topK)]⟩
      else
        match restExtractText
            (env.respond (buildPayload env.searchModel body.query vsId (forwardTopK body.topK))).json with
        | .error e =>
          ⟨.httpExc 500 (.obj [("error", .str e)]),
            ops, [buildPayload env.searchModel body.query vsId (forwardTopK body.topK)]⟩
        | .ok t =>
          ⟨.ok (.obj [("ok", .bool true), ("text", t), ("citations", .arr [])]),
            ops, [buildPayload env.searchModel body.query vsId (forwardTopK body.topK)]⟩

/-- Process-wide configuration of app.py after startup: the shared
secret, the vector-store id resolved once at startup (app.py line 121),
and the store name. -/
structure Config where
  actionSecret : String
  vectorStoreId : String
  vectorStoreName : String

/-- The GET /info handler of app.py (lines 138-140): the startup store
id and name. -/
def infoResponse (cfg : Config) : JVal :=
  .obj [("vector_store_id", .str cfg.vectorStoreId),
        ("vector_store_name", .str cfg.vectorStoreName)]

/-- The /upload handler as wired in app.py: it reads the process-wide
secret and the startup-resolved store id. -/
def uploadApp (cfg : Config) (env : UploadEnv) (hdr ns : Option String) :
    Resp × List UpOp :=
  upload cfg.actionSecret cfg.vectorStoreId env hdr ns

/-- Characterization of a /search run when the secret gate, the query
validation and the API-key check pass, the store resolution succeeds,
and the upstream replies to the one attempted payload with a non-2xx
status: the handler raises HTTPException 500 whose detail carries the
upstream status and body, after exactly one POST to /v1/responses. -/
theorem searchFix_upstream_error (env : SearchEnv) (body : SearchBody)
    (hdr vsId : String) (ops : List StoreOp) (s : Nat) (b : String) (j : JVal)
    (h1 : env.secretExpected ≠ "") (h2 : hdr = env.secretExpected)
    (hq : jtruthy body.query = true) (hqs : jIsStr body.query = true)
    (hk : env.apiKey ≠ "")
    (hres : getOrCreateVectorStoreId env.store env.vectorStoreName = (.ok vsId, ops))
    (hresp : env.respond (buildPayload env.searchModel body.query vsId (forwardTopK body.topK)) = ⟨s, b, j⟩)
    (h4 : 400 ≤ s) :
    searchFix env body hdr =
      ⟨.httpExc 500 (.obj [("error", .str ("REST responses failed: " ++ toString s)),
        ("body", .str b)]), ops,
       [buildPayload env.searchModel body.query vsId (forwardTopK body.topK)]⟩ := by
  unfold searchFix
  rw [if_neg (by simp [h1, h2]), if_neg (by simp [hq, hqs]), if_neg (by simp [hk]), hres]
  simp only [hresp]
  rw [if_pos h4]

/-- Characterization of a /search run when all checks pass, resolution
succeeds, the upstream replies to the one attempted payload with a 2xx
status and the normalization does not raise: the handler returns the
normalized text after exactly one POST to /v1/responses. -/
theorem searchFix_upstream_ok (env : SearchEnv) (body : SearchBody)
    (hdr vsId : String) (ops : List StoreOp) (s : Nat) (b : String) (j t : JVal)
    (h1 : env.secretExpected ≠ "") (h2 : hdr = env.secretExpected)
    (hq : jtruthy body.query = true) (hqs : jIsStr body.query = true)
    (hk : env.apiKey ≠ "")
    (hres : getOrCreateVectorStoreId env.store env.vectorStoreName = (.ok vsId, ops))
    (hresp : env.respond (buildPayload env.searchModel body.query vsId (forwardTopK body.topK)) = ⟨s, b, j⟩)
    (h4 : s < 400) (hext : restExtractText j = .ok t) :
    searchFix env body hdr =
      ⟨.ok (.obj [("ok", .bool true), ("text", t), ("citations", .arr [])]),
       ops, [buildPayload env.searchModel body.query vsId (forwardTopK body.topK)]⟩ := by
  unfold searchFix
  rw [if_neg (by simp [h1, h2]), if_neg (by simp [hq, hqs]), if_neg (by simp [hk]), hres]
  simp only [hresp]
  rw [if_neg (by omega)]
  rw [hext]

/-- Store oracle whose first creation call succeeds with id vs_fix, as
the per-request resolver relies on. -/
def storeEnvOk : StoreEnv :=
  ⟨Except.ok "vs_fix", Except.error "unused", Except.error "unused"⟩

/-- Search environment of the concrete runs: secret sek, key set, the
default store name and model, and an upstream accepting every query. -/
def envW : SearchEnv :=
  { secretExpected := "sek", apiKey := "key",
    vectorStoreName := "bullz-vector-store", searchModel := "gpt-4.1-mini",
    store := storeEnvOk,
    respond := fun _ => ⟨200, "", .obj [("output_text", .str "hello")]⟩ }

/-- Valid search request body used by the concrete runs. -/
def bodyW : SearchBody := ⟨.str "what is bullz", some 6, none⟩

/-- Upstream that rejects the one payload shape the handler builds with
a shape-rejection error (HTTP 400, unknown-parameter text) and would
accept any other payload shape with a successful answer. -/
def envC1 : SearchEnv :=
  { envW with
    respond := fun p =>
      if p.vectorStoreIds = ["vs_fix"] then
        ⟨400, "Unknown parameter: tool_resources", .null⟩
      else ⟨200, "", .obj [("output_text", .str "variant-2 answer")]⟩ }

/-- C1 counterexample: against an upstream that rejects the attempted
payload with a shape-rejection error and would accept a second shape,
the /search handler does not return any variant-2 success and produces
no diagnostic list of attempted variants: it raises HTTPException 500
carrying the upstream status and body, after exactly one upstream
responses call. -/
theorem c1_counterexample :
    (searchFix envC1 bodyW "sek").result =
      .httpExc 500 (.obj [("error", .str "REST responses failed: 400"),
        ("body", .str "Unknown parameter: tool_resources")]) ∧
    (searchFix envC1 bodyW "sek").responsesCalls.length = 1 := by
  exact ⟨rfl, rfl⟩

/-- C1 amended: the Query Flow builds a single payload shape and makes
exactly one POST to /v1/responses; when the upstream rejects it — with
a shape-rejection error or any other non-2xx reply — /search raises
HTTP 500 whose detail carries the upstream status and body, attempts no
further variant, and produces no diagnostic list. -/
theorem c1_single_attempt_no_diagnostics (env : SearchEnv) (body : SearchBody)
    (hdr vsId : String) (ops : List StoreOp) (s : Nat) (b : String) (j : JVal)
    (h1 : env.secretExpected ≠ "") (h2 : hdr = env.secretExpected)
    (hq : jtruthy body.query = true) (hqs : jIsStr body.query = true)
    (hk : env.apiKey ≠ "")
    (hres : getOrCreateVectorStoreId env.store env.vectorStoreName = (.ok vsId, ops))
    (hresp : env.respond (buildPayload env.searchModel body.query vsId (forwardTopK body.topK)) = ⟨s, b, j⟩)
    (h4 : 400 ≤ s) :
    (searchFix env body hdr).result =
      .httpExc 500 (.obj [("error", .str ("REST responses failed: " ++ toString s)),
        ("body", .str b)]) ∧
    (searchFix env body hdr).responsesCalls =
      [buildPayload env.searchModel body.query vsId (forwardTopK body.topK)] := by
  rw [searchFix_upstream_error env body hdr vsId ops s b j h1 h2 hq hqs hk hres hresp h4]
  exact ⟨rfl, rfl⟩

/-- C1 amended witness: the amended statement evaluated on the concrete
shape-rejecting upstream. -/
theorem c1_witness :
    (searchFix envC1 bodyW "sek").result =
      .httpExc 500 (.obj [("error", .str "REST responses failed: 400"),
        ("body", .str "Unknown parameter: tool_resources")]) ∧
    (searchFix envC1 bodyW "sek").responsesCalls =
      [buildPayload "gpt-4.1-mini" (.str "what is bullz") "vs_fix" 6] := by
  have h := c1_single_attempt_no_diagnostics envC1 bodyW "sek" "vs_fix"
    [StoreOp.create "bullz-vector-store"] 400 "Unknown parameter: tool_resources" .null
    (by decide) rfl rfl rfl (by decide) rfl rfl (by decide)
  exact ⟨h.1, h.2⟩

/-- Upstream that answers every responses call with a rate-limit error
(HTTP 429), which is not a shape-rejection error. -/
def env429 : SearchEnv :=
  { envW with respond := fun _ => ⟨429, "rate limited", .null⟩ }

/-- C2: when the upstream reply to the first attempted payload is an
error outside the shape-rejection class (any non-2xx status other than
400, for example the rate-limit 429), the /search handler stops after
that first attempt: the trace of /v1/responses calls is exactly the one
first payload, so no upstream call is made for any later variant, and
the request fails with status 500. In the code this holds because the
handler never attempts a second payload shape at all. -/
theorem c2_non_shape_error_stops (env : SearchEnv) (body : SearchBody)
    (hdr vsId : String) (ops : List StoreOp) (s : Nat) (b : String) (j : JVal)
    (h1 : env.secretExpected ≠ "") (h2 : hdr = env.secretExpected)
    (hq : jtruthy body.query = true) (hqs : jIsStr body.query = true)
    (hk : env.apiKey ≠ "")
    (hres : getOrCreateVectorStoreId env.store env.vectorStoreName = (.ok vsId, ops))
    (hresp : env.respond (buildPayload env.searchModel body.query vsId (forwardTopK body.topK)) = ⟨s, b, j⟩)
    (h4 : 400 ≤ s) (hnotShape : s ≠ 400) :
    (searchFix env body hdr).responsesCalls =
      [buildPayload env.searchModel body.query vsId (forwardTopK body.topK)] ∧
    (searchFix env body hdr).result.status = 500 := by
  rw [searchFix_upstream_error env body hdr vsId ops s b j h1 h2 hq hqs hk hres hresp h4]
  exact ⟨rfl, rfl⟩

/-- C2 witness: the statement evaluated on the concrete rate-limiting
upstream. -/
theorem c2_witness :
    (searchFix env429 bodyW "sek").responsesCalls =
      [buildPayload "gpt-4.1-mini" (.str "what is bullz") "vs_fix" 6] ∧
    (searchFix env429 bodyW "sek").result.status = 500 := by
  have h := c2_non_shape_error_stops env429 bodyW "sek" "vs_fix"
    [StoreOp.create "bullz-vector-store"] 429 "rate limited" .null
    (by decide) rfl rfl rfl (by decide) rfl rfl (by decide) (by decide)
  exact ⟨h.1, h.2⟩

/-- C3: a POST /search request dispatched to the handler defined in
app.py whose secret check passes gets the JSON serialization of None
back and triggers no upstream query call, because the payload
construction and the upstream POST that textually follow the secret
check are dedented to module scope, outside the handler body. -/
theorem c3_app_search_returns_none (expected : String) (hdr : Option String)
    (hgood : checkSecretRejects hdr expected = false) :
    appSearch expected hdr = (Resp.ok JVal.null, []) := by
  simp [appSearch, hgood]

/-- C3 witness: the handler evaluated at a matching secret. -/
theorem c3_witness : appSearch "sek" (some "sek") = (Resp.ok JVal.null, []) :=
  c3_app_search_returns_none "sek" (some "sek") (by decide)

/-- Upload oracle whose three upstream calls all succeed. -/
def uploadEnvW : UploadEnv := ⟨Except.ok "file_1", Except.ok (), Except.ok ()⟩

/-- C4: a request to a protected endpoint (/authcheck as the spec
describes it, /upload, and /search) whose X-Action-Secret header is
missing, empty, or different from the configured secret is answered
with HTTP 401 and an empty upstream-call trace. The last conjunct
covers the routes_search_fix /search handler, whose gate likewise
rejects any supplied non-matching header value. -/
theorem c4_bad_secret_unauthorized (expected storeId : String) (uenv : UploadEnv)
    (hdr : Option String) (ns : Option String)
    (hbad : hdr = none ∨ hdr = some "" ∨ ∃ s, hdr = some s ∧ s ≠ expected) :
    authcheck expected hdr = (Resp.httpExc 401 (.str "bad secret"), []) ∧
    upload expected storeId uenv hdr ns = (Resp.httpExc 401 (.str "bad secret"), []) ∧
    appSearch expected hdr = (Resp.httpExc 401 (.str "bad secret"), []) ∧
    (∀ env : SearchEnv, ∀ body : SearchBody, ∀ s : String,
      hdr = some s → env.secretExpected = expected →
      searchFix env body s = ⟨Resp.httpExc 401 (.str "bad secret"), [], []⟩) := by
  have hrej : checkSecretRejects hdr expected = true := by
    rcases hbad with h | h | ⟨s, h, hne⟩ <;> subst h <;> simp [checkSecretRejects, *]
  refine ⟨by simp [authcheck, hrej], by simp [upload, hrej], by simp [appSearch, hrej], ?_⟩
  intro env body s hs henv
  have hcond : env.secretExpected = "" ∨ s ≠ env.secretExpected := by
    subst hs
    rcases hbad with h | h | ⟨t, h, hne⟩
    · exact absurd h (by simp)
    · have hs0 : s = "" := by injection h
      by_cases hexp : env.secretExpected = ""
      · exact Or.inl hexp
      · refine Or.inr fun hc => hexp ?_
        rw [← hc, hs0]
    · have hst : s = t := by injection h
      refine Or.inr ?_
      rw [henv, hst]
      exact hne
  unfold searchFix
  rw [if_pos hcond]

/-- C4 witness: the three handlers and the router gate evaluated at a
mismatching header value. -/
theorem c4_witness :
    authcheck "sek" (some "wrong") = (Resp.httpExc 401 (.str "bad secret"), []) ∧
    upload "sek" "vs_fix" uploadEnvW (some "wrong") none = (Resp.httpExc 401 (.str "bad secret"), []) ∧
    appSearch "sek" (some "wrong") = (Resp.httpExc 401 (.str "bad secret"), []) ∧
    searchFix envW bodyW "wrong" = ⟨Resp.httpExc 401 (.str "bad secret"), [], []⟩ := by
  have h := c4_bad_secret_unauthorized "sek" "vs_fix" uploadEnvW (some "wrong") none
    (Or.inr (Or.inr ⟨"wrong", rfl, by decide⟩))
  exact ⟨h.1, h.2.1, h.2.2.1, h.2.2.2 envW bodyW "wrong" rfl rfl⟩

/-- Helper: any attach operation performed by /upload uses the
startup-resolved store id of the configuration. -/
theorem uploadApp_attach_store (cfg : Config) (env : UploadEnv) (hdr ns : Option String)
    (sid fid : String)
    (h : UpOp.attach sid fid ∈ (uploadApp cfg env hdr ns).2) : sid = cfg.vectorStoreId := by
  unfold uploadApp upload at h
  split at h
  · simp at h
  · split at h
    · simp at h
    · split at h
      · simp at h
        exact h.1
      · split at h
        · simp at h
          exact h.1
        · split at h
          · simp at h
            exact h.1
          · simp at h
            exact h.1

/-- Configuration of the concrete process: secret sek, startup store id
vs_startup, default store name. -/
def cfgW : Config := ⟨"sek", "vs_startup", "bullz-vector-store"⟩

/-- Search environment whose per-request store creation succeeds with a
fresh id vs_other, different from the startup-resolved id. -/
def envC5 : SearchEnv :=
  { envW with store := ⟨Except.ok "vs_other", Except.error "unused", Except.error "unused"⟩ }

/-- C5 counterexample: within one process whose startup-resolved store
id is vs_startup, GET /info reports vs_startup, yet a /search request
resolves its own store by creating a new one and posts its query
against vs_other: the id /info returns differs from the id /search
actually used, and /search did create a different store after
startup. -/
theorem c5_counterexample :
    jget (infoResponse cfgW) "vector_store_id" = .str "vs_startup" ∧
    (searchFix envC5 bodyW "sek").storeOps = [StoreOp.create "bullz-vector-store"] ∧
    (searchFix envC5 bodyW "sek").responsesCalls.map Payload.vectorStoreIds = [["vs_other"]] ∧
    "vs_other" ≠ "vs_startup" := by
  refine ⟨rfl, rfl, rfl, by decide⟩

/-- C5 amended: /info reflects the store id actually used by /upload
(both read the id resolved once at startup); /search however resolves a
store id of its own on every request via creation-first logic, so the
id it queries can differ from the one /info reports. The theorem proves
the surviving half: every attach performed by /upload uses exactly the
id that /info returns. -/
theorem c5_info_matches_upload (cfg : Config) (env : UploadEnv) (hdr ns : Option String)
    (sid fid : String)
    (h : UpOp.attach sid fid ∈ (uploadApp cfg env hdr ns).2) :
    JVal.str sid = jget (infoResponse cfg) "vector_store_id" := by
  rw [uploadApp_attach_store cfg env hdr ns sid fid h]
  rfl

/-- C5 amended witness: the attach issued by a concrete successful
upload carries the id /info reports. -/
theorem c5_witness :
    JVal.str "vs_startup" = jget (infoResponse cfgW) "vector_store_id" :=
  c5_info_matches_upload cfgW uploadEnvW (some "sek") none "vs_startup" "file_1" (by decide)

/-- Store oracle for the C6 counterexample: a store named with the
configured name already exists upstream with id vs_old, and the
creation call succeeds with a fresh id vs_new. -/
def storeEnvC6 : StoreEnv :=
  ⟨Except.ok "vs_new", Except.ok [⟨some "bullz-vector-store", "vs_old"⟩], Except.error "unused"⟩

/-- C6 counterexample: the per-request resolver of /search does not
follow the order configured id, find-by-name, create: although a store
whose name exactly equals the configured name exists upstream (id
vs_old), the resolver returns a freshly created store vs_new and its
operation trace is a bare create with no list. -/
theorem c6_counterexample :
    getOrCreateVectorStoreId storeEnvC6 "bullz-vector-store" =
      (Except.ok "vs_new", [StoreOp.create "bullz-vector-store"]) ∧
    storeEnvC6.list = Except.ok [⟨some "bullz-vector-store", "vs_old"⟩] ∧
    "vs_new" ≠ "vs_old" := by
  refine ⟨rfl, rfl, by decide⟩

/-- C6 amended: the startup resolver ensure_vector_store_safe does
follow the claimed order — a configured non-empty id is returned
unchanged with no upstream call; otherwise the id of the first listed
store whose name exactly equals the configured name is returned; only
when none matches is a store created and its id returned. The
per-request resolver of /search instead attempts creation first and
ignores any configured id. -/
theorem c6_startup_resolution_order (env : ResolveEnv) (vsId vsName : String) :
    (vsId ≠ "" → ensureVectorStoreSafe env vsId vsName = (Except.ok vsId, [])) ∧
    (∀ stores s, vsId = "" → env.list = Except.ok stores →
      stores.find? (fun t => t.name == some vsName) = some s →
      ensureVectorStoreSafe env vsId vsName = (Except.ok s.id, [StoreOp.list])) ∧
    (∀ stores vid, vsId = "" → env.list = Except.ok stores →
      stores.find? (fun t => t.name == some vsName) = none →
      env.create = Except.ok vid →
      ensureVectorStoreSafe env vsId vsName =
        (Except.ok vid, [StoreOp.list, StoreOp.create vsName])) := by
  refine ⟨fun h => ?_, fun stores s h0 hl hf => ?_, fun stores vid h0 hl hf hc => ?_⟩
  · unfold ensureVectorStoreSafe
    rw [if_pos h]
  · unfold ensureVectorStoreSafe
    rw [if_neg (by simp [h0]), hl]
    dsimp only
    rw [hf]
  · unfold ensureVectorStoreSafe
    rw [if_neg (by simp [h0]), hl]
    dsimp only
    rw [hf]
    dsimp only
    rw [hc]

/-- Startup-resolver oracle with nothing upstream: both calls unused. -/
def resolveEnvA : ResolveEnv := ⟨Except.error "unused", Except.error "unused"⟩

/-- Startup-resolver oracle listing one store with the configured
name. -/
def resolveEnvB : ResolveEnv :=
  ⟨Except.ok [⟨some "bullz-vector-store", "vs_named"⟩], Except.error "unused"⟩

/-- Startup-resolver oracle with an empty listing and a successful
creation. -/
def resolveEnvC : ResolveEnv := ⟨Except.ok [], Except.ok "vs_created"⟩

/-- C6 amended witness: the three branches of the startup resolver
evaluated on concrete oracles. -/
theorem c6_witness :
    ensureVectorStoreSafe resolveEnvA "vs_env" "bullz-vector-store" = (Except.ok "vs_env", []) ∧
    ensureVectorStoreSafe resolveEnvB "" "bullz-vector-store" = (Except.ok "vs_named", [StoreOp.list]) ∧
    ensureVectorStoreSafe resolveEnvC "" "bullz-vector-store" =
      (Except.ok "vs_created", [StoreOp.list, StoreOp.create "bullz-vector-store"]) := by
  refine ⟨(c6_startup_resolution_order resolveEnvA "vs_env" "bullz-vector-store").1 (by decide),
    (c6_startup_resolution_order resolveEnvB "" "bullz-vector-store").2.1
      [⟨some "bullz-vector-store", "vs_named"⟩] ⟨some "bullz-vector-store", "vs_named"⟩ rfl rfl rfl,
    (c6_startup_resolution_order resolveEnvC "" "bullz-vector-store").2.2
      [] "vs_created" rfl rfl rfl rfl⟩

/-- Upload oracle whose file-creation call fails at the transport
level. -/
def uploadEnvFail : UploadEnv := ⟨Except.error "connection reset", Except.ok (), Except.ok ()⟩

/-- C7 counterexample: upstream failures do not surface as HTTP 502.
A rate-limited upstream reply to the /search query makes the handler
raise status 500, not 502; and a transport failure during the /upload
file-creation call escapes the handler as an uncaught exception (a bare
framework 500 carrying no stage and no upstream detail). -/
theorem c7_counterexample :
    (searchFix env429 bodyW "sek").result.status = 500 ∧
    (searchFix env429 bodyW "sek").result.status ≠ 502 ∧
    (upload "sek" "vs_startup" uploadEnvFail (some "sek") none).1 =
      Resp.unhandled "connection reset" := by
  refine ⟨rfl, by decide, rfl⟩

/-- Upload oracle whose file-creation call succeeds but whose attach
call fails. -/
def uploadEnvAttachFail : UploadEnv :=
  ⟨Except.ok "file_1", Except.error "attach refused", Except.ok ()⟩

/-- C7 amended: an upstream failure while serving /search surfaces as
HTTP 500 whose detail carries the upstream status code and body; an
upstream failure of either unprotected upstream call of /upload — the
file-creation call (app.py line 149) or the attach call (line 155) —
propagates as an uncaught exception, with no stage tag and no upstream
detail. Neither endpoint produces a 502. -/
theorem c7_upstream_failures_surface_500 (env : SearchEnv) (body : SearchBody)
    (hdr vsId : String) (ops : List StoreOp) (s : Nat) (b : String) (j : JVal)
    (h1 : env.secretExpected ≠ "") (h2 : hdr = env.secretExpected)
    (hq : jtruthy body.query = true) (hqs : jIsStr body.query = true)
    (hk : env.apiKey ≠ "")
    (hres : getOrCreateVectorStoreId env.store env.vectorStoreName = (.ok vsId, ops))
    (hresp : env.respond (buildPayload env.searchModel body.query vsId (forwardTopK body.topK)) = ⟨s, b, j⟩)
    (h4 : 400 ≤ s)
    (expected storeId e : String) (uenv : UploadEnv) (uhdr ns : Option String)
    (hgood : checkSecretRejects uhdr expected = false)
    (hfail : uenv.createFile = Except.error e ∨
      ∃ fid, uenv.createFile = Except.ok fid ∧ uenv.attach = Except.error e) :
    (searchFix env body hdr).result =
      .httpExc 500 (.obj [("error", .str ("REST responses failed: " ++ toString s)),
        ("body", .str b)]) ∧
    (upload expected storeId uenv uhdr ns).1 = Resp.unhandled e := by
  constructor
  · rw [searchFix_upstream_error env body hdr vsId ops s b j h1 h2 hq hqs hk hres hresp h4]
  · rcases hfail with hcf | ⟨fid, hok, hat⟩
    · simp [upload, hgood, hcf]
    · simp [upload, hgood, hok, hat]

/-- C7 amended witness: the amended statement evaluated on the concrete
rate-limiting search upstream and on both failing upload oracles, one
per unprotected upstream call. -/
theorem c7_witness :
    (searchFix env429 bodyW "sek").result =
      .httpExc 500 (.obj [("error", .str "REST responses failed: 429"),
        ("body", .str "rate limited")]) ∧
    (upload "sek" "vs_startup" uploadEnvFail (some "sek") none).1 =
      Resp.unhandled "connection reset" ∧
    (upload "sek" "vs_startup" uploadEnvAttachFail (some "sek") none).1 =
      Resp.unhandled "attach refused" := by
  have hcreate := c7_upstream_failures_surface_500 env429 bodyW "sek" "vs_fix"
    [StoreOp.create "bullz-vector-store"] 429 "rate limited" .null
    (by decide) rfl rfl rfl (by decide) rfl rfl (by decide)
    "sek" "vs_startup" "connection reset" uploadEnvFail (some "sek") none
    (by decide) (Or.inl rfl)
  have hattach := c7_upstream_failures_surface_500 env429 bodyW "sek" "vs_fix"
    [StoreOp.create "bullz-vector-store"] 429 "rate limited" .null
    (by decide) rfl rfl rfl (by decide) rfl rfl (by decide)
    "sek" "vs_startup" "attach refused" uploadEnvAttachFail (some "sek") none
    (by decide) (Or.inr ⟨"file_1", rfl, rfl⟩)
  exact ⟨hcreate.1, hcreate.2, hattach.2⟩

/-- C8: a /search request passing the secret gate whose query is the
empty string or not a string is answered with HTTP 400 before any
upstream call: the vector-store operation trace and the responses-call
trace are both empty. -/
theorem c8_invalid_query_400 (env : SearchEnv) (body : SearchBody) (hdr : String)
    (h1 : env.secretExpected ≠ "") (h2 : hdr = env.secretExpected)
    (hq : jtruthy body.query = false ∨ jIsStr body.query = false) :
    searchFix env body hdr = ⟨Resp.httpExc 400 (.str "query required"), [], []⟩ := by
  unfold searchFix
  rw [if_neg (by simp [h1, h2]), if_pos hq]

/-- Body whose query is the empty string. -/
def bodyEmptyQuery : SearchBody := ⟨.str "", some 6, none⟩

/-- C8 witness: the handler evaluated at an empty query. -/
theorem c8_witness :
    searchFix envW bodyEmptyQuery "sek" = ⟨Resp.httpExc 400 (.str "query required"), [], []⟩ :=
  c8_invalid_query_400 envW bodyEmptyQuery "sek" (by decide) rfl (Or.inl rfl)

/-- Upstream reply whose two text-bearing leaves a and b sit one level
deeper than the fixed depth the normalization walks. -/
def dNested : JVal :=
  .obj [("output", .arr [.obj [("content", .arr [.obj [("type", .str "wrapper"),
    ("items", .arr [
      .obj [("type", .str "text"), ("text", .str "a")],
      .obj [("type", .str "text"), ("text", .str "b")]])]])]])]

/-- Demonstration that the model keeps the failure modes of the Python
walk: a truthy non-string text field at the collected depth makes the
extraction raise (the TypeError of the newline join), as the program
does, instead of skipping the entry. -/
theorem restExtractText_join_crash :
    restExtractText (.obj [("output", .arr [.obj [("content", .arr [
      .obj [("type", .str "text"), ("text", .num 5)],
      .obj [("type", .str "text"), ("text", .str "a")]])]])]) =
    .error "TypeError: sequence item is not a str" := rfl

/-- Demonstration that the model keeps the failure modes of the Python
walk: a non-dict element of a content list makes the extraction raise
(the AttributeError of ct.get), as the program does, instead of
skipping it. -/
theorem restExtractText_nondict_crash :
    restExtractText (.obj [("output", .arr [.obj [("content", .arr [
      .num 42, .obj [("type", .str "text"), ("text", .str "a")]])]])]) =
    .error "AttributeError: get" := rfl

/-- C9 counterexample: a reply whose text-bearing leaves in document
order are a and b — as the deep collector _collect_text_deep attests —
is normalized by the /search extraction to the sentinel, not to the
newline-joined a b, because the extraction only walks the fixed depth
output, content and never recurses further. -/
theorem c9_counterexample :
    collectTextDeep dNested = [.str "a", .str "b"] ∧
    restExtractText dNested = Except.ok (.str "(no text output)") ∧
    "(no text output)" ≠ "a\nb" := by
  refine ⟨rfl, rfl, by decide⟩

/-- C9 amended: the normalization collects text-bearing entries only at
the fixed depth output, item, content; when the walk over that depth
completes without raising and yields exactly the string parts a and b
in document order, and no truthy top-level output_text is present, the
result is the single string a, newline, b. Deeper leaves are not
collected (app.py defines the deep collector _collect_text_deep but no
code calls it), and a reply that makes the walk or the join raise — a
non-dict entry or a truthy non-string text — surfaces as HTTP 500
instead of a normalized text. -/
theorem c9_shallow_extraction (kvs : List (String × JVal))
    (h0 : jtruthy (jget (.obj kvs) "output_text") = false)
    (hs : shallowTexts (.obj kvs) = Except.ok [JVal.str "a", JVal.str "b"]) :
    restExtractText (.obj kvs) = Except.ok (.str "a\nb") := by
  unfold restExtractText
  dsimp only
  rw [if_neg (by simp [h0]), hs]
  rfl

/-- Upstream reply whose text-bearing leaves a and b sit exactly at the
depth the normalization walks. -/
def dFlatFields : List (String × JVal) :=
  [("output", .arr [.obj [("content", .arr [
    .obj [("type", .str "text"), ("text", .str "a")],
    .obj [("type", .str "text"), ("text", .str "b")]])]])]

/-- C9 amended witness: the extraction evaluated on the concrete
depth-two reply. -/
theorem c9_witness : restExtractText (.obj dFlatFields) = Except.ok (.str "a\nb") :=
  c9_shallow_extraction dFlatFields rfl rfl

/-- C10: the top_k forwarded to the upstream inside the payload
metadata is always int(body.top_k or 6): every payload posted by a
/search run carries forwardTopK of the request top_k, which is the
default 6 when the caller sent null or 0, and the caller value exactly
when it is a non-zero (truthy) integer. -/
theorem c10_topk_defaulting (env : SearchEnv) (body : SearchBody) (hdr : String) :
    (∀ p ∈ (searchFix env body hdr).responsesCalls, p.topK = forwardTopK body.topK) ∧
    forwardTopK none = 6 ∧ forwardTopK (some 0) = 6 ∧
    (∀ k : Int, k ≠ 0 → forwardTopK (some k) = k) := by
  refine ⟨?_, rfl, rfl, fun k hk => by simp [forwardTopK, hk]⟩
  intro p hp
  unfold searchFix at hp
  split at hp
  · simp at hp
  · split at hp
    · simp at hp
    · split at hp
      · simp at hp
      · split at hp
        · simp at hp
        · split at hp
          · simp at hp
            subst hp
            rfl
          · split at hp
            · simp at hp
              subst hp
              rfl
            · simp at hp
              subst hp
              rfl

/-- Body whose top_k is 0, a falsy value. -/
def bodyTopK0 : SearchBody := ⟨.str "what is bullz", some 0, none⟩

/-- C10 witness: a run with top_k 0 posts the default 6, and the
defaulting function evaluated at null, 0 and 5. -/
theorem c10_witness :
    buildPayload "gpt-4.1-mini" (.str "what is bullz") "vs_fix" 6 ∈
      (searchFix envW bodyTopK0 "sek").responsesCalls ∧
    (buildPayload "gpt-4.1-mini" (.str "what is bullz") "vs_fix" 6).topK = forwardTopK (some 0) ∧
    forwardTopK none = 6 ∧ forwardTopK (some 0) = 6 ∧ forwardTopK (some 5) = 5 := by
  have hmem : buildPayload "gpt-4.1-mini" (.str "what is bullz") "vs_fix" 6 ∈
      (searchFix envW bodyTopK0 "sek").responsesCalls :=
    List.mem_singleton.mpr rfl
  have h := c10_topk_defaulting envW bodyTopK0 "sek"
  exact ⟨hmem, h.1 _ hmem, h.2.1, h.2.2.1, h.2.2.2 5 (by decide)⟩

end BullzProxy
